import Mathlib

/-!
Shallow embedding of the entity/persistence layer of
`src/bank_miniproject_interactive.py` (mini banking project).

Modelling conventions:
* Monetary amounts (Python floats, SQLite REAL) are modelled as exact
  rationals `ℚ`, following the spec's decimal-amount reading.
* Each entity state carries both the persisted row value (`row…` fields,
  what the SQL UPDATE/INSERT writes) and the in-memory snapshot (the
  `_balance` / `_current_debt` / `_status` attribute of the Python object),
  so that the relative order of the attribute mutation and the SQL write in
  the source is observable.
* The outcome of `BaseEntity._execute_dml` (commit succeeded or an
  `sqlite3.Error` was caught, returning `None`) is an explicit `Bool`
  argument of every operation that issues a write.
* A mutator's return value is an `OpResult` recording which branch of the
  source returned: the source returns a bare `True`/`False`, but each
  `False` branch is a distinct guard with its own log line, and the spec
  names these branches (`InvalidAmount`, `InsufficientFunds`, …).
-/

namespace MiniBank

/-- Which branch of a mutator returned: `ok` is the source's `True`;
each failure constructor is one distinct `False` branch of the source. -/
inductive OpResult where
  | ok
  | invalidAmount
  | insufficientFunds
  | creditLimitExceeded
  | invalidState
  | storageFailure
deriving DecidableEq, Repr

/-- State of one bank account: the persisted `accounts.balance` column,
the in-memory `_balance` snapshot, and the rows of the `transactions`
table for this account (txn_type, amount); timestamps are not modelled. -/
structure AccountState where
  rowBalance : ℚ
  balance : ℚ
  txnRows : List (String × ℚ)
deriving DecidableEq, Repr

/-- `Account._record_transaction`: INSERT into `transactions`; the insert's
own DML outcome is `txnOk`, and a failure is swallowed by the caller. -/
def recordTransaction (s : AccountState) (txnType : String) (amount : ℚ)
    (txnOk : Bool) : AccountState :=
  if txnOk then { s with txnRows := s.txnRows ++ [(txnType, amount)] } else s

/-- `Account.deposit(amount)`: guard `amount <= 0`; then
`UPDATE accounts SET balance = balance + ?` (outcome `updOk`); only on
success `self._balance += amount` and a Deposit transaction is recorded. -/
def deposit (s : AccountState) (amount : ℚ) (updOk txnOk : Bool) :
    OpResult × AccountState :=
  if amount ≤ 0 then (.invalidAmount, s)
  else if updOk then
    let s1 := { s with rowBalance := s.rowBalance + amount,
                       balance := s.balance + amount }
    (.ok, recordTransaction s1 "Deposit" amount txnOk)
  else (.storageFailure, s)

/-- `Account.withdraw(amount)`: guards `amount <= 0` and
`amount > self._balance`; then `UPDATE accounts SET balance = balance - ?`;
only on success `self._balance -= amount` and a Withdrawal is recorded. -/
def withdraw (s : AccountState) (amount : ℚ) (updOk txnOk : Bool) :
    OpResult × AccountState :=
  if amount ≤ 0 then (.invalidAmount, s)
  else if s.balance < amount then (.insufficientFunds, s)
  else if updOk then
    let s1 := { s with rowBalance := s.rowBalance - amount,
                       balance := s.balance - amount }
    (.ok, recordTransaction s1 "Withdrawal" amount txnOk)
  else (.storageFailure, s)

/-- One call into the account mutators, carrying the amount and the DML
outcomes of the balance UPDATE and of the transaction-record INSERT. -/
inductive AccOp where
  | dep (amount : ℚ) (updOk txnOk : Bool)
  | wd (amount : ℚ) (updOk txnOk : Bool)
deriving DecidableEq, Repr

def applyOp (s : AccountState) : AccOp → OpResult × AccountState
  | .dep a u t => deposit s a u t
  | .wd a u t => withdraw s a u t

/-- Run a sequence of deposit/withdraw calls on one account object,
collecting each call's result. -/
def runOps (s : AccountState) : List AccOp → List OpResult × AccountState
  | [] => ([], s)
  | op :: ops =>
    let step := applyOp s op
    let rest := runOps step.2 ops
    (step.1 :: rest.1, rest.2)

/-- State of one credit card: persisted `credit_cards.current_debt`,
the `_credit_limit` attribute (never mutated), and the in-memory
`_current_debt` snapshot. -/
structure CardState where
  rowDebt : ℚ
  credit_limit : ℚ
  current_debt : ℚ
deriving DecidableEq, Repr

/-- `CreditCard.available_credit`: `self._credit_limit - self._current_debt`. -/
def availableCredit (s : CardState) : ℚ := s.credit_limit - s.current_debt

/-- `CreditCard.make_purchase(amount)`: guards `amount <= 0` and
`amount > self.available_credit`; then `self._current_debt += amount`
BEFORE the `UPDATE credit_cards SET current_debt = ?` (which writes the
already-incremented snapshot); a failed UPDATE returns `False` but the
snapshot stays incremented. -/
def make_purchase (s : CardState) (amount : ℚ) (updOk : Bool) :
    OpResult × CardState :=
  if amount ≤ 0 then (.invalidAmount, s)
  else if availableCredit s < amount then (.creditLimitExceeded, s)
  else
    let s1 := { s with current_debt := s.current_debt + amount }
    if updOk then (.ok, { s1 with rowDebt := s1.current_debt })
    else (.storageFailure, s1)

/-- State of one loan: the `_loan_id` attribute (`none` before `save_new`),
the persisted `loans.status` column, and the in-memory `_status` snapshot.
Statuses are the literal strings of the source. -/
structure LoanState where
  loan_id : Option Nat
  rowStatus : String
  status : String
deriving DecidableEq, Repr

/-- Python truthiness of the optional integer `self._loan_id`
(`None` and `0` are falsy). -/
def idTruthy : Option Nat → Bool
  | none => false
  | some n => decide (n ≠ 0)

/-- `Loan.approve()`: guard `self._status == 'Pending' and self._loan_id`;
then `self._status = 'Approved'` BEFORE the
`UPDATE loans SET status = ?`; a failed UPDATE returns `False` but the
snapshot status stays `'Approved'`. -/
def approve (s : LoanState) (updOk : Bool) : OpResult × LoanState :=
  if s.status = "Pending" ∧ idTruthy s.loan_id = true then
    let s1 := { s with status := "Approved" }
    if updOk then (.ok, { s1 with rowStatus := s1.status })
    else (.storageFailure, s1)
  else (.invalidState, s)

/-- A persisted row of the `customers` table. -/
structure CustomerRow where
  customer_id : Nat
  first_name : String
  last_name : String
  address : String
  join_date : String
deriving DecidableEq, Repr

/-- A persisted row of the `employees` table. -/
structure EmployeeRow where
  employee_id : Nat
  first_name : String
  last_name : String
  position : String
  salary : ℚ
deriving DecidableEq, Repr

/-- `Customer.save_new`: unconditionally INSERTs the row (the schema's
`NOT NULL` admits empty strings, so there is no name validation here);
on DML success the fresh AUTOINCREMENT id (modelled as `length + 1`) is
returned and assigned to `self._customer_id`; on failure `None` is
returned and the id attribute is untouched.
Result: (returned id, customers table, new `_customer_id` attribute). -/
def customerSaveNew (db : List CustomerRow) (selfId : Option Nat)
    (first last addr date : String) (dmlOk : Bool) :
    Option Nat × List CustomerRow × Option Nat :=
  if dmlOk then
    let newId := db.length + 1
    (some newId, db ++ [⟨newId, first, last, addr, date⟩], some newId)
  else (none, db, selfId)

/-- `Employee.save_new`: same pattern as `Customer.save_new`, again with
no validation of any field. -/
def employeeSaveNew (db : List EmployeeRow) (selfId : Option Nat)
    (first last pos : String) (salary : ℚ) (dmlOk : Bool) :
    Option Nat × List EmployeeRow × Option Nat :=
  if dmlOk then
    let newId := db.length + 1
    (some newId, db ++ [⟨newId, first, last, pos, salary⟩], some newId)
  else (none, db, selfId)

/-- Python `str.strip()` on the character list: drop leading and trailing
whitespace. -/
def stripChars (l : List Char) : List Char :=
  ((l.dropWhile Char.isWhitespace).reverse.dropWhile Char.isWhitespace).reverse

/-- Python `str.strip()`. -/
def pyStrip (s : String) : String := ⟨stripChars s.data⟩

/-- `BankSystem.create_customer` (the interactive flow): `.strip()` the
names, refuse with a warning when either is empty (Python falsiness of a
string), else construct a `Customer` and call `save_new`.
Result: (customers table, assigned id). -/
def create_customer (db : List CustomerRow) (first last addr date : String)
    (dmlOk : Bool) : List CustomerRow × Option Nat :=
  let f := pyStrip first
  let l := pyStrip last
  let a := pyStrip addr
  if f = "" ∨ l = "" then (db, none)
  else
    let r := customerSaveNew db none f l a date dmlOk
    (r.2.1, r.1)

/-- `BankSystem.add_employee` (the interactive flow): no name check at
all; constructs an `Employee` and calls `save_new`. -/
def add_employee (db : List EmployeeRow) (first last pos : String)
    (salary : ℚ) (dmlOk : Bool) : List EmployeeRow × Option Nat :=
  let r := employeeSaveNew db none (pyStrip first) (pyStrip last)
    (pyStrip pos) salary dmlOk
  (r.2.1, r.1)

/-! ### Helper lemmas about the account mutators -/

theorem recordTransaction_balance (s : AccountState) (ty : String) (a : ℚ)
    (ok : Bool) : (recordTransaction s ty a ok).balance = s.balance := by
  unfold recordTransaction; split <;> rfl

theorem recordTransaction_rowBalance (s : AccountState) (ty : String) (a : ℚ)
    (ok : Bool) : (recordTransaction s ty a ok).rowBalance = s.rowBalance := by
  unfold recordTransaction; split <;> rfl

theorem deposit_invalid (s : AccountState) (a : ℚ) (u t : Bool) (h : a ≤ 0) :
    deposit s a u t = (.invalidAmount, s) := by
  unfold deposit; rw [if_pos h]

theorem deposit_dmlFail (s : AccountState) (a : ℚ) (t : Bool) (h : 0 < a) :
    deposit s a false t = (.storageFailure, s) := by
  unfold deposit; rw [if_neg (not_le.mpr h)]; rfl

theorem deposit_ok_balance (s : AccountState) (a : ℚ) (t : Bool) (h : 0 < a) :
    (deposit s a true t).1 = .ok ∧
    (deposit s a true t).2.balance = s.balance + a ∧
    (deposit s a true t).2.rowBalance = s.rowBalance + a := by
  unfold deposit
  rw [if_neg (not_le.mpr h)]
  exact ⟨rfl, recordTransaction_balance _ _ _ _,
    recordTransaction_rowBalance _ _ _ _⟩

theorem deposit_fst_ok (s : AccountState) (a : ℚ) (u t : Bool)
    (h : (deposit s a u t).1 = .ok) : 0 < a ∧ u = true := by
  unfold deposit at h
  split at h
  · exact absurd h (by simp)
  · next h1 =>
    split at h
    · next h2 => exact ⟨not_le.mp h1, h2⟩
    · exact absurd h (by simp)

theorem withdraw_invalid (s : AccountState) (a : ℚ) (u t : Bool)
    (h : a ≤ 0) : withdraw s a u t = (.invalidAmount, s) := by
  unfold withdraw; rw [if_pos h]

theorem withdraw_insufficient (s : AccountState) (a : ℚ) (u t : Bool)
    (h1 : ¬ a ≤ 0) (h2 : s.balance < a) :
    withdraw s a u t = (.insufficientFunds, s) := by
  unfold withdraw; rw [if_neg h1, if_pos h2]

theorem withdraw_dmlFail (s : AccountState) (a : ℚ) (t : Bool)
    (h1 : 0 < a) (h2 : a ≤ s.balance) :
    withdraw s a false t = (.storageFailure, s) := by
  unfold withdraw
  rw [if_neg (not_le.mpr h1), if_neg (not_lt.mpr h2)]
  rfl

theorem withdraw_ok_balance (s : AccountState) (a : ℚ) (t : Bool)
    (h1 : 0 < a) (h2 : a ≤ s.balance) :
    (withdraw s a true t).1 = .ok ∧
    (withdraw s a true t).2.balance = s.balance - a ∧
    (withdraw s a true t).2.rowBalance = s.rowBalance - a := by
  unfold withdraw
  rw [if_neg (not_le.mpr h1), if_neg (not_lt.mpr h2)]
  exact ⟨rfl, recordTransaction_balance _ _ _ _,
    recordTransaction_rowBalance _ _ _ _⟩

theorem withdraw_fst_ok (s : AccountState) (a : ℚ) (u t : Bool)
    (h : (withdraw s a u t).1 = .ok) :
    0 < a ∧ a ≤ s.balance ∧ u = true := by
  unfold withdraw at h
  split at h
  · exact absurd h (by simp)
  · next h1 =>
    split at h
    · exact absurd h (by simp)
    · next h2 =>
      split at h
      · next h3 => exact ⟨not_le.mp h1, not_lt.mp h2, h3⟩
      · exact absurd h (by simp)

theorem deposit_fail_state (s : AccountState) (a : ℚ) (u t : Bool)
    (h : (deposit s a u t).1 ≠ .ok) : (deposit s a u t).2 = s := by
  unfold deposit at h ⊢
  split_ifs at h ⊢
  · rfl
  · exact absurd rfl h
  · rfl

theorem withdraw_fail_state (s : AccountState) (a : ℚ) (u t : Bool)
    (h : (withdraw s a u t).1 ≠ .ok) : (withdraw s a u t).2 = s := by
  unfold withdraw at h ⊢
  split_ifs at h ⊢
  · rfl
  · rfl
  · exact absurd rfl h
  · rfl

/-! ### Helper lemmas about the card and loan mutators -/

theorem make_purchase_dmlFail (c : CardState) (a : ℚ) (h1 : 0 < a)
    (h2 : a ≤ availableCredit c) :
    make_purchase c a false =
      (.storageFailure, { c with current_debt := c.current_debt + a }) := by
  unfold make_purchase
  rw [if_neg (not_le.mpr h1), if_neg (not_lt.mpr h2)]
  rfl

theorem approve_pending_ok (l : LoanState) (hp : l.status = "Pending")
    (hid : idTruthy l.loan_id = true) :
    approve l true =
      (.ok, { l with status := "Approved", rowStatus := "Approved" }) := by
  unfold approve
  rw [if_pos ⟨hp, hid⟩]
  rfl

theorem approve_dmlFail (l : LoanState) (hp : l.status = "Pending")
    (hid : idTruthy l.loan_id = true) :
    approve l false = (.storageFailure, { l with status := "Approved" }) := by
  unfold approve
  rw [if_pos ⟨hp, hid⟩]
  rfl

theorem approve_guard_fails (l : LoanState) (u : Bool)
    (h : ¬ (l.status = "Pending" ∧ idTruthy l.loan_id = true)) :
    approve l u = (.invalidState, l) := by
  unfold approve
  rw [if_neg h]

/-- A successful account mutator call preserves a non-negative snapshot
balance. -/
theorem applyOp_ok_balance_nonneg (s : AccountState) (op : AccOp)
    (h0 : 0 ≤ s.balance) (hok : (applyOp s op).1 = OpResult.ok) :
    0 ≤ (applyOp s op).2.balance := by
  cases op with
  | dep a u t =>
    obtain ⟨ha, hu⟩ := deposit_fst_ok s a u t hok
    subst hu
    show 0 ≤ (deposit s a true t).2.balance
    rw [(deposit_ok_balance s a t ha).2.1]
    linarith
  | wd a u t =>
    obtain ⟨ha, hle, hu⟩ := withdraw_fst_ok s a u t hok
    subst hu
    show 0 ≤ (withdraw s a true t).2.balance
    rw [(withdraw_ok_balance s a t ha hle).2.1]
    linarith

/-! ### The claims -/

/-- C1: for every account whose starting snapshot balance is non-negative,
the balance remains non-negative after every sequence of deposit and
withdraw calls in which each call individually returned success. -/
theorem c1_balance_nonneg_after_ok_ops (s : AccountState) (ops : List AccOp)
    (h0 : 0 ≤ s.balance)
    (hok : ∀ r ∈ (runOps s ops).1, r = OpResult.ok) :
    0 ≤ (runOps s ops).2.balance := by
  induction ops generalizing s with
  | nil => exact h0
  | cons op ops ih =>
    have hrun : runOps s (op :: ops) =
        ((applyOp s op).1 :: (runOps (applyOp s op).2 ops).1,
          (runOps (applyOp s op).2 ops).2) := rfl
    rw [hrun] at hok ⊢
    have hhd : (applyOp s op).1 = OpResult.ok := hok _ (List.mem_cons_self _ _)
    have h1 := applyOp_ok_balance_nonneg s op h0 hhd
    exact ih _ h1 fun r hr => hok r (List.mem_cons_of_mem _ hr)

/-- Witness for C1: a concrete three-call history of successes starting at
balance 5 ends non-negative. -/
theorem c1_witness :
    0 ≤ (runOps ⟨5, 5, []⟩
      [AccOp.dep 3 true true, AccOp.wd 7 true true, AccOp.wd 1 true false]).2.balance :=
  c1_balance_nonneg_after_ok_ops ⟨5, 5, []⟩
    [AccOp.dep 3 true true, AccOp.wd 7 true true, AccOp.wd 1 true false]
    (by norm_num)
    (by norm_num [runOps, applyOp, deposit, withdraw, recordTransaction])

/-- C2: on an account with non-negative balance, `withdraw` with
`amount > balance` returns the insufficient-funds failure and leaves the
whole account state (persisted row, snapshot, transaction rows) unchanged;
`withdraw` with `amount ≤ 0` returns the invalid-amount failure, also
leaving the state unchanged. -/
theorem c2_withdraw_failure_modes (s : AccountState) (amount : ℚ)
    (updOk txnOk : Bool) (hbal : 0 ≤ s.balance) :
    (s.balance < amount →
      withdraw s amount updOk txnOk = (OpResult.insufficientFunds, s)) ∧
    (amount ≤ 0 →
      withdraw s amount updOk txnOk = (OpResult.invalidAmount, s)) := by
  refine ⟨fun h => ?_, fun h => withdraw_invalid s amount updOk txnOk h⟩
  exact withdraw_insufficient s amount updOk txnOk (by linarith) h

/-- Witness for C2: withdrawing 150 from a balance of 100 fails with
insufficient funds and changes nothing. -/
theorem c2_witness :
    withdraw ⟨100, 100, []⟩ 150 true true =
      (OpResult.insufficientFunds, ⟨100, 100, []⟩) :=
  (c2_withdraw_failure_modes ⟨100, 100, []⟩ 150 true true (by decide)).1
    (by decide)

/-- C5: a successful `deposit(x)` followed by a successful `withdraw(x)`
on the same account object restores both the snapshot balance and the
persisted row balance exactly. -/
theorem c5_deposit_withdraw_round_trip (s : AccountState) (x : ℚ)
    (u1 t1 u2 t2 : Bool)
    (h1 : (deposit s x u1 t1).1 = OpResult.ok)
    (h2 : (withdraw (deposit s x u1 t1).2 x u2 t2).1 = OpResult.ok) :
    (withdraw (deposit s x u1 t1).2 x u2 t2).2.balance = s.balance ∧
    (withdraw (deposit s x u1 t1).2 x u2 t2).2.rowBalance = s.rowBalance := by
  obtain ⟨hx, hu1⟩ := deposit_fst_ok s x u1 t1 h1
  subst hu1
  obtain ⟨hx2, hle, hu2⟩ := withdraw_fst_ok _ x u2 t2 h2
  subst hu2
  obtain ⟨-, hb, hr⟩ := withdraw_ok_balance (deposit s x true t1).2 x t2 hx2 hle
  obtain ⟨-, hb1, hr1⟩ := deposit_ok_balance s x t1 hx
  rw [hb, hr, hb1, hr1]
  constructor <;> ring

/-- Witness for C5: deposit 4 then withdraw 4 on balance 10 gives back
balance 10. -/
theorem c5_witness :
    (withdraw (deposit ⟨10, 10, []⟩ 4 true true).2 4 true true).2.balance =
      (10 : ℚ) := by
  have hd := deposit_ok_balance ⟨10, 10, []⟩ 4 true (by norm_num)
  have hle : (4 : ℚ) ≤ (deposit ⟨10, 10, []⟩ 4 true true).2.balance := by
    rw [hd.2.1]
    show (4 : ℚ) ≤ 10 + 4
    norm_num
  have hw := withdraw_ok_balance (deposit ⟨10, 10, []⟩ 4 true true).2 4 true
    (by norm_num) hle
  have h := c5_deposit_withdraw_round_trip ⟨10, 10, []⟩ 4 true true true true
    hd.1 hw.1
  rw [h.1]

/-- C6: starting from a card state satisfying
`0 ≤ current_debt ≤ credit_limit`, `make_purchase` never produces a state
with `current_debt > credit_limit`, for any amount and whether the call
succeeds, fails a guard, or fails the storage write; moreover the
persisted debt column is either untouched or also within the limit. -/
theorem c6_debt_never_exceeds_limit (s : CardState) (amount : ℚ)
    (updOk : Bool) (_h0 : 0 ≤ s.current_debt)
    (h1 : s.current_debt ≤ s.credit_limit) :
    (make_purchase s amount updOk).2.current_debt ≤
      (make_purchase s amount updOk).2.credit_limit ∧
    ((make_purchase s amount updOk).2.rowDebt = s.rowDebt ∨
      (make_purchase s amount updOk).2.rowDebt ≤
        (make_purchase s amount updOk).2.credit_limit) := by
  unfold make_purchase availableCredit
  split_ifs with ha hb hc
  · exact ⟨h1, Or.inl rfl⟩
  · exact ⟨h1, Or.inl rfl⟩
  · have hle : s.credit_limit - s.current_debt ≥ amount := not_lt.mp hb
    constructor
    · show s.current_debt + amount ≤ s.credit_limit
      linarith
    · right
      show s.current_debt + amount ≤ s.credit_limit
      linarith
  · have hle : s.credit_limit - s.current_debt ≥ amount := not_lt.mp hb
    constructor
    · show s.current_debt + amount ≤ s.credit_limit
      linarith
    · exact Or.inl rfl

/-- Witness for C6: a purchase of 300 on a card with limit 200 and debt 50
leaves the debt within the limit. -/
theorem c6_witness :
    (make_purchase ⟨50, 200, 50⟩ 300 true).2.current_debt ≤
      (make_purchase ⟨50, 200, 50⟩ 300 true).2.credit_limit :=
  (c6_debt_never_exceeds_limit ⟨50, 200, 50⟩ 300 true
    (show (0 : ℚ) ≤ 50 by norm_num) (show (50 : ℚ) ≤ 200 by norm_num)).1

/-- C7: on a saved loan (truthy id) with status Pending, `approve` with a
succeeding write returns success and sets both the persisted column and
the snapshot to Approved; a second `approve` fails in the invalid-state
branch and changes nothing; and `approve` on any loan whose status is not
Pending fails in the invalid-state branch and changes nothing. -/
theorem c7_approve_once_then_invalid (s : LoanState) (u2 : Bool)
    (hp : s.status = "Pending") (hid : idTruthy s.loan_id = true) :
    (approve s true).1 = OpResult.ok ∧
    (approve s true).2.status = "Approved" ∧
    (approve s true).2.rowStatus = "Approved" ∧
    approve (approve s true).2 u2 = (OpResult.invalidState, (approve s true).2) ∧
    (∀ l : LoanState, ∀ u : Bool, l.status ≠ "Pending" →
      approve l u = (OpResult.invalidState, l)) := by
  have hgen : ∀ l : LoanState, ∀ u : Bool, l.status ≠ "Pending" →
      approve l u = (OpResult.invalidState, l) := fun l u h =>
    approve_guard_fails l u (fun hc => h hc.1)
  have h1 := approve_pending_ok s hp hid
  refine ⟨by rw [h1], by rw [h1], by rw [h1], ?_, hgen⟩
  refine hgen _ u2 ?_
  rw [h1]
  show ("Approved" : String) ≠ "Pending"
  decide

/-- Witness for C7: approving the freshly saved pending loan with id 1
succeeds. -/
theorem c7_witness :
    (approve ⟨some 1, "Pending", "Pending"⟩ true).1 = OpResult.ok :=
  (c7_approve_once_then_invalid ⟨some 1, "Pending", "Pending"⟩ true rfl rfl).1

/-- C8: on a card state satisfying `0 ≤ current_debt ≤ credit_limit`,
`make_purchase` fails in the credit-limit-exceeded branch exactly when
`amount > credit_limit - current_debt`; and in the spec's scenario (limit
500, debt 0): a purchase of 600 fails with the limit exceeded, a purchase
of exactly 500 succeeds leaving debt 500, and a subsequent purchase of
0.01 fails with the limit exceeded. -/
theorem c8_credit_limit_exceeded_iff (s : CardState) (amount : ℚ)
    (updOk : Bool) (_h0 : 0 ≤ s.current_debt)
    (h1 : s.current_debt ≤ s.credit_limit) :
    ((make_purchase s amount updOk).1 = OpResult.creditLimitExceeded ↔
      s.credit_limit - s.current_debt < amount) ∧
    (make_purchase ⟨0, 500, 0⟩ 600 true).1 = OpResult.creditLimitExceeded ∧
    (make_purchase ⟨0, 500, 0⟩ 500 true).1 = OpResult.ok ∧
    (make_purchase ⟨0, 500, 0⟩ 500 true).2.current_debt = 500 ∧
    (make_purchase (make_purchase ⟨0, 500, 0⟩ 500 true).2 (1/100) true).1 =
      OpResult.creditLimitExceeded := by
  refine ⟨?_, ?_, ?_, ?_, ?_⟩
  · unfold make_purchase availableCredit
    split_ifs with ha hb hc
    · exact iff_of_false (by simp) (by linarith)
    · exact iff_of_true rfl hb
    · exact iff_of_false (by simp) hb
    · exact iff_of_false (by simp) hb
  · norm_num [make_purchase, availableCredit]
  · norm_num [make_purchase, availableCredit]
  · norm_num [make_purchase, availableCredit]
  · norm_num [make_purchase, availableCredit]

/-- Witness for C8: the characterization instantiated on the scenario card
(limit 500, debt 0) at amount 600. -/
theorem c8_witness :
    (make_purchase ⟨0, 500, 0⟩ 600 true).1 = OpResult.creditLimitExceeded ↔
      (⟨0, 500, 0⟩ : CardState).credit_limit -
        (⟨0, 500, 0⟩ : CardState).current_debt < 600 :=
  (c8_credit_limit_exceeded_iff ⟨0, 500, 0⟩ 600 true
    (show (0 : ℚ) ≤ 0 by norm_num) (show (0 : ℚ) ≤ 500 by norm_num)).1

/-- C9: `deposit` and `withdraw` mutate the snapshot only after the
persisted UPDATE succeeds: when the write fails they return the
storage-failure result with the whole state unchanged — unlike
`make_purchase` and `approve`, which increment the snapshot debt /
set the snapshot status to Approved before the write and keep that
mutation when the write fails. -/
theorem c9_snapshot_mutated_only_after_write (s : AccountState) (a : ℚ)
    (t : Bool) :
    (0 < a → deposit s a false t = (OpResult.storageFailure, s)) ∧
    (0 < a → a ≤ s.balance →
      withdraw s a false t = (OpResult.storageFailure, s)) ∧
    (∀ c : CardState, 0 < a → a ≤ availableCredit c →
      (make_purchase c a false).1 = OpResult.storageFailure ∧
      (make_purchase c a false).2.current_debt = c.current_debt + a) ∧
    (∀ l : LoanState, l.status = "Pending" → idTruthy l.loan_id = true →
      (approve l false).1 = OpResult.storageFailure ∧
      (approve l false).2.status = "Approved") := by
  refine ⟨fun h => deposit_dmlFail s a t h,
    fun h h2 => withdraw_dmlFail s a t h h2, fun c h h2 => ?_, fun l hp hid => ?_⟩
  · rw [make_purchase_dmlFail c a h h2]
    exact ⟨rfl, rfl⟩
  · rw [approve_dmlFail l hp hid]
    exact ⟨rfl, rfl⟩

/-- Witness for C9: a deposit of 1 whose UPDATE fails leaves the state
⟨2, 2, []⟩ untouched. -/
theorem c9_witness :
    deposit ⟨2, 2, []⟩ 1 false true = (OpResult.storageFailure, ⟨2, 2, []⟩) :=
  (c9_snapshot_mutated_only_after_write ⟨2, 2, []⟩ 1 true).1 (by norm_num)

/-- C10: `approve` on a never-saved loan (unassigned id) returns the
invalid-state failure and leaves the state — in particular a Pending
status — unchanged; and any successful `approve` requires both status
Pending and a truthy assigned id. -/
theorem c10_unsaved_pending_loan (s : LoanState) (u : Bool)
    (hid : s.loan_id = none) (hp : s.status = "Pending") :
    approve s u = (OpResult.invalidState, s) ∧
    (approve s u).2.status = "Pending" ∧
    (∀ l : LoanState, ∀ v : Bool, (approve l v).1 = OpResult.ok →
      l.status = "Pending" ∧ idTruthy l.loan_id = true) := by
  have h : approve s u = (OpResult.invalidState, s) := by
    refine approve_guard_fails s u ?_
    rintro ⟨-, hidt⟩
    rw [hid] at hidt
    exact Bool.false_ne_true hidt
  refine ⟨h, by rw [h]; exact hp, ?_⟩
  intro l v hok
  by_cases hc : l.status = "Pending" ∧ idTruthy l.loan_id = true
  · exact hc
  · rw [approve_guard_fails l v hc] at hok
    exact absurd hok (by simp)

/-- Witness for C10: approving an unsaved pending loan fails and changes
nothing. -/
theorem c10_witness :
    approve ⟨none, "Pending", "Pending"⟩ true =
      (OpResult.invalidState, ⟨none, "Pending", "Pending"⟩) :=
  (c10_unsaved_pending_loan ⟨none, "Pending", "Pending"⟩ true rfl rfl).1

/-- C3 is refuted: a `make_purchase` of 50 on a card with limit 100 and
debt 0 whose UPDATE fails reports failure, yet the in-memory snapshot debt
has already been changed to 50 — a partial update exposed to the caller. -/
theorem c3_counterexample :
    (make_purchase ⟨0, 100, 0⟩ 50 false).1 = OpResult.storageFailure ∧
    (make_purchase ⟨0, 100, 0⟩ 50 false).2.current_debt = 50 ∧
    (make_purchase ⟨0, 100, 0⟩ 50 false).2.rowDebt = 0 := by
  rw [make_purchase_dmlFail ⟨0, 100, 0⟩ 50 (by norm_num)
    (by norm_num [availableCredit])]
  refine ⟨rfl, ?_, rfl⟩
  show (0 : ℚ) + 50 = 50
  norm_num

/-- C3 amended: `deposit` and `withdraw` are atomic from the caller's view
(any reported failure leaves the whole account state unchanged), but
`make_purchase` and `approve` mutate the in-memory snapshot before the
write, so on a storage-write failure they report failure while the
snapshot is already updated (debt incremented / status set to Approved)
and the persisted row is not. -/
theorem c3_amended_atomicity (a : ℚ) (u t : Bool) :
    (∀ s : AccountState,
      (deposit s a u t).1 ≠ OpResult.ok → (deposit s a u t).2 = s) ∧
    (∀ s : AccountState,
      (withdraw s a u t).1 ≠ OpResult.ok → (withdraw s a u t).2 = s) ∧
    (∀ c : CardState, 0 < a → a ≤ availableCredit c →
      make_purchase c a false =
        (OpResult.storageFailure,
          { c with current_debt := c.current_debt + a })) ∧
    (∀ l : LoanState, l.status = "Pending" → idTruthy l.loan_id = true →
      approve l false = (OpResult.storageFailure, { l with status := "Approved" })) :=
  ⟨fun s h => deposit_fail_state s a u t h,
    fun s h => withdraw_fail_state s a u t h,
    fun c h1 h2 => make_purchase_dmlFail c a h1 h2,
    fun l hp hid => approve_dmlFail l hp hid⟩

/-- Witness for C3 (amended): a concrete failed-write purchase showing the
snapshot debt incremented while the row is untouched. -/
theorem c3_amended_witness :
    make_purchase ⟨0, 200, 10⟩ 5 false = (OpResult.storageFailure, ⟨0, 200, 15⟩) := by
  have h := (c3_amended_atomicity 5 true true).2.2.1 ⟨0, 200, 10⟩ (by norm_num)
    (by norm_num [availableCredit])
  rw [h]
  show (OpResult.storageFailure, (⟨0, 200, (10 : ℚ) + 5⟩ : CardState)) = _
  norm_num

/-- C4 is refuted: the repository-level insert (`save_new`) performs no
name validation — inserting Customer(first="", last="Smith") with a
succeeding write persists the row and returns and assigns id 1, and the
same holds for an Employee with an empty first name. -/
theorem c4_counterexample :
    (customerSaveNew [] none "" "Smith" "" "2026-01-01" true).1 = some 1 ∧
    (customerSaveNew [] none "" "Smith" "" "2026-01-01" true).2.1 =
      [⟨1, "", "Smith", "", "2026-01-01"⟩] ∧
    (employeeSaveNew [] none "" "Smith" "Teller" 100 true).1 = some 1 :=
  ⟨rfl, rfl, rfl⟩

/-- C4 amended: the interactive customer-creation flow rejects an empty
(after stripping) first or last name before any write — no row persisted,
no id assigned; but `save_new` itself validates nothing: `Customer.save_new`
and `Employee.save_new` persist the row and assign the fresh id whenever
the write succeeds, whatever the name fields, and no Employee name
validation exists anywhere. -/
theorem c4_amended_validation (db : List CustomerRow) (edb : List EmployeeRow)
    (selfId : Option Nat) (first last addr pos date : String) (sal : ℚ)
    (dmlOk : Bool) :
    (pyStrip first = "" ∨ pyStrip last = "" →
      create_customer db first last addr date dmlOk = (db, none)) ∧
    (customerSaveNew db selfId first last addr date true =
      (some (db.length + 1),
        db ++ [⟨db.length + 1, first, last, addr, date⟩],
        some (db.length + 1))) ∧
    (employeeSaveNew edb selfId first last pos sal true =
      (some (edb.length + 1),
        edb ++ [⟨edb.length + 1, first, last, pos, sal⟩],
        some (edb.length + 1))) := by
  refine ⟨fun h => ?_, rfl, rfl⟩
  unfold create_customer
  rw [if_pos h]

/-- Witness for C4 (amended): creating a customer with an empty first name
through the interactive flow persists nothing and yields no id. -/
theorem c4_amended_witness :
    create_customer [] "" "Smith" "221B" "2026-01-01" true = ([], none) :=
  (c4_amended_validation [] [] none "" "Smith" "221B" "x" "2026-01-01" 0
    true).1 (Or.inl (by decide))

end MiniBank
